import Mathlib

/-
  A formal model of run.py, the workflow coordinator of the thesis draft
  generator repository.  The program persists a single JSON configuration
  record (theme, instruments, sample size, creation timestamp, per-phase
  status map), bootstraps a fixed directory tree, and prints static
  instructional text.  We embed the data model, the filesystem-facing
  operations and the command-line dispatcher as executable Lean
  definitions and prove the specified properties about them.
-/

set_option maxRecDepth 20000

/-- JSON values, modelling the Python objects handled by json.dump and
json.load for this program: strings, integers, booleans, null, arrays,
and objects with insertion-ordered keys. -/
inductive Json where
  | str : String → Json
  | int : Int → Json
  | bool : Bool → Json
  | null : Json
  | arr : List Json → Json
  | obj : List (String × Json) → Json

/-- Lookup in an insertion-ordered association list (Python dict access
by key). -/
def alookup {α : Type} : List (String × α) → String → Option α
  | [], _ => none
  | (k, v) :: t, key => if k = key then some v else alookup t key

/-- Overwrite-or-append update of an association list (rebinding a dict
key, or overwriting a file at a path). -/
def aset {α : Type} : List (String × α) → String → α → List (String × α)
  | [], key, v => [(key, v)]
  | (k, w) :: t, key, v => if k = key then (key, v) :: t else (k, w) :: aset t key v

/-- Map a fallible reader over a list, failing when any element fails
(used to read a typed list back out of a JSON array). -/
def optMap {α β : Type} (f : α → Option β) : List α → Option (List β)
  | [] => some []
  | x :: t =>
    match f x, optMap f t with
    | some y, some r => some (y :: r)
    | _, _ => none

/-- Python truthiness of a JSON value (empty strings, zero, false, null,
empty arrays and empty objects are falsy). -/
def Json.truthy : Json → Bool
  | Json.str s => decide (s ≠ "")
  | Json.int n => decide (n ≠ 0)
  | Json.bool b => b
  | Json.null => false
  | Json.arr l => !l.isEmpty
  | Json.obj l => !l.isEmpty

/-- The six phase identifiers in workflow order (PHASES in run.py). -/
def PHASES : List String :=
  ["research", "feasibility-research", "simulate", "feasibility-data", "analyze", "write"]

/-- The configuration record persisted at inputs/config.json: theme,
ordered instrument list, sample size, creation timestamp, and the
insertion-ordered phase-to-status map. -/
structure Config where
  theme : String
  instruments : List String
  sample_size : Int
  created : String
  phases : List (String × String)
deriving DecidableEq

/-- Split a character list at every occurrence of a separator character
(the behaviour of the Python str.split method with an explicit
one-character separator: never drops tokens, keeps empty tokens). -/
def splitCharList (sep : Char) : List Char → List (List Char)
  | [] => [[]]
  | c :: t =>
    match splitCharList sep t, decide (c = sep) with
    | r, true => [] :: r
    | [], false => [[c]]
    | h :: r, false => (c :: h) :: r

/-- The Python str.strip method: drop leading and trailing whitespace. -/
def pyStrip (s : String) : String :=
  String.mk (((s.data.dropWhile Char.isWhitespace).reverse.dropWhile Char.isWhitespace).reverse)

/-- parse_instruments in run.py: split the argument on commas and strip
each token. -/
def parse_instruments (instruments_str : String) : List String :=
  (splitCharList ',' instruments_str.data).map (fun i => pyStrip (String.mk i))

/-- create_config in run.py: a fresh configuration with every phase
pending.  The creation timestamp datetime.now().isoformat() is passed
explicitly as now. -/
def create_config (theme : String) (instruments : List String) (sample_size : Int)
    (now : String) : Config :=
  { theme := theme
    instruments := instruments
    sample_size := sample_size
    created := now
    phases := PHASES.map (fun phase => (phase, "pending")) }

/-- The JSON object that json.dump writes for a configuration record. -/
def Config.toJson (c : Config) : Json :=
  Json.obj
    [("theme", Json.str c.theme),
     ("instruments", Json.arr (c.instruments.map Json.str)),
     ("sample_size", Json.int c.sample_size),
     ("created", Json.str c.created),
     ("phases", Json.obj (c.phases.map (fun kv => (kv.1, Json.obj [("status", Json.str kv.2)]))))]

def Json.asStr : Json → Option String
  | Json.str s => some s
  | _ => none

def Json.asInt : Json → Option Int
  | Json.int n => some n
  | _ => none

def Json.asStrList : Json → Option (List String)
  | Json.arr xs => optMap Json.asStr xs
  | _ => none

/-- Read one phase entry object back: the status field of a one-field
status object. -/
def Json.asStatus : Json → Option String
  | Json.obj fields => (alookup fields "status").bind Json.asStr
  | _ => none

def Json.asPhases : Json → Option (List (String × String))
  | Json.obj fields => optMap (fun kv => (Json.asStatus kv.2).map (fun s => (kv.1, s))) fields
  | _ => none

/-- Interpret a loaded JSON value as a configuration record, performing
the field accesses the program makes on a loaded configuration dict. -/
def config_of_json (j : Json) : Option Config :=
  match j with
  | Json.obj fields =>
    match (alookup fields "theme").bind Json.asStr,
          (alookup fields "instruments").bind Json.asStrList,
          (alookup fields "sample_size").bind Json.asInt,
          (alookup fields "created").bind Json.asStr,
          (alookup fields "phases").bind Json.asPhases with
    | some t, some ins, some n, some cr, some ph =>
      some { theme := t, instruments := ins, sample_size := n, created := cr, phases := ph }
    | _, _, _, _, _ => none
  | _ => none

/-- Filesystem state: the set of existing directories (as segment paths
relative to the repository root, which itself always exists) and the
JSON contents of files by path. -/
structure FS where
  dirs : List (List String)
  files : List (String × Json)

def CONFIG_PATH : String := "inputs/config.json"

/-- save_config in run.py: overwrite inputs/config.json with the JSON
dump of the record, reporting the path written. -/
def save_config (fs : FS) (config : Config) : FS × String :=
  ({ fs with files := aset fs.files CONFIG_PATH (Config.toJson config) },
   "Configuration saved to " ++ CONFIG_PATH)

/-- load_config in run.py: read inputs/config.json, failing with a
FileNotFoundError message when the file is absent. -/
def load_config (fs : FS) : Except String Json :=
  match alookup fs.files CONFIG_PATH with
  | none => Except.error ("No configuration found at " ++ CONFIG_PATH ++
      ". Run with --theme and --instruments first.")
  | some j => Except.ok j

/-- Split a path string at slashes (Path division in pathlib accepts a
multi-segment string such as the thesis chapters subdirectory). -/
def splitSlash (s : String) : List String :=
  (splitCharList '/' s.data).map String.mk

/-- Create a single directory if absent (the final step of any mkdir
call with exist_ok set: no error and no duplicate when it exists). -/
def mkdirP1 (dirs : List (List String)) (p : List String) : List (List String) :=
  if p ∈ dirs then dirs else dirs ++ [p]

/-- All nonempty prefixes of a path, shortest first: the chain of
directories an mkdir call with parents set must ensure. -/
def ancestors : List String → List (List String)
  | [] => []
  | s :: rest => [s] :: (ancestors rest).map (fun q => s :: q)

/-- Path.mkdir with parents and exist_ok both set: create every missing
ancestor, then the directory itself; never fails. -/
def mkdir_parents (dirs : List (List String)) (p : List String) : List (List String) :=
  (ancestors p).foldl mkdirP1 dirs

/-- Path.mkdir with exist_ok set but without parents: fails when the
parent directory is missing (the empty path is the repository root,
which always exists). -/
def mkdirNP (dirs : List (List String)) (p : List String) : Except String (List (List String)) :=
  if p ∈ dirs then Except.ok dirs
  else if p.dropLast ∈ dirs ∨ p.dropLast = [] then Except.ok (dirs ++ [p])
  else Except.error "FileNotFoundError"

/-- The output subdirectory names bootstrapped by setup_directories. -/
def OUTPUT_SUBDIRS : List String :=
  ["research", "feasibility", "data", "analysis", "thesis/chapters"]

def OUTPUTS_SEG : List String := ["outputs"]

def INPUTS_SEG : List String := ["inputs"]

/-- setup_directories in run.py: ensure the five output subdirectories
(with parents) and the inputs directory exist. -/
def setup_directories (dirs : List (List String)) : Except String (List (List String)) :=
  let d1 := OUTPUT_SUBDIRS.foldl
    (fun d subdir => mkdir_parents d (OUTPUTS_SEG ++ splitSlash subdir)) dirs
  mkdirNP d1 INPUTS_SEG

/-- The directory tree setup_directories produces (it can never fail:
the inputs directory sits directly under the always-existing root). -/
def setup_result (dirs : List (List String)) : List (List String) :=
  mkdirP1 (OUTPUT_SUBDIRS.foldl
    (fun d subdir => mkdir_parents d (OUTPUTS_SEG ++ splitSlash subdir)) dirs) INPUTS_SEG

/-- The Python str.join pattern used for instrument lists and for the
newline-joined instruction boxes. -/
def joinSep (sep : String) : List String → String
  | [] => ""
  | [x] => x
  | x :: t => x ++ sep ++ joinSep sep t

/-- A triple-quoted instruction block: newline, the box lines joined by
newlines, newline. -/
def boxText (lines : List String) : String :=
  "\n" ++ joinSep "\n" lines ++ "\n"

def RESEARCH_TEXT : String := boxText [
  "+----------------------------------------------------------------------+",
  "|  PHASE 1: RESEARCH                                                   |",
  "+----------------------------------------------------------------------+",
  "|  Skill: skills/research/SKILL.md                                     |",
  "|                                                                      |",
  "|  Tasks:                                                              |",
  "|  1. Search literature for each construct in the theme                |",
  "|  2. Gather instrument specifications                                 |",
  "|  3. Build bibliography (25-40 recent sources)                        |",
  "|  4. Document expected relationships between constructs               |",
  "|                                                                      |",
  "|  Outputs:                                                            |",
  "|  - outputs/research/literature_review.md                             |",
  "|  - outputs/research/constructs.json                                  |",
  "|  - outputs/research/instruments_detailed.json                        |",
  "|  - outputs/research/bibliography.json                                |",
  "+----------------------------------------------------------------------+"]

def FEASIBILITY_RESEARCH_TEXT : String := boxText [
  "+----------------------------------------------------------------------+",
  "|  PHASE 2: FEASIBILITY - RESEARCH DIRECTION                           |",
  "+----------------------------------------------------------------------+",
  "|  Skill: skills/feasibility-research/SKILL.md                         |",
  "|                                                                      |",
  "|  CHECKPOINT: Discover the most scientifically relevant direction.    |",
  "|                                                                      |",
  "|  Tasks:                                                              |",
  "|  1. Map established vs. novel findings                               |",
  "|  2. Identify gaps and opportunities                                  |",
  "|  3. Evaluate hypothesis options (novelty, feasibility, interest)     |",
  "|  4. Recommend optimal research direction                             |",
  "|                                                                      |",
  "|  Outputs:                                                            |",
  "|  - outputs/feasibility/research_landscape.json                       |",
  "|  - outputs/feasibility/direction_recommendation.md                   |",
  "|  - outputs/feasibility/feasibility_matrix.md                         |",
  "|                                                                      |",
  "|  >> Review direction_recommendation.md before proceeding! <<         |",
  "+----------------------------------------------------------------------+"]

def SIMULATE_TEXT : String := boxText [
  "+----------------------------------------------------------------------+",
  "|  PHASE 3: DATA SIMULATION                                            |",
  "+----------------------------------------------------------------------+",
  "|  Skill: skills/data-simulator/SKILL.md                               |",
  "|                                                                      |",
  "|  Tasks:                                                              |",
  "|  1. Load instrument specs and refined hypotheses                     |",
  "|  2. Generate demographics (Romanian sample by default)               |",
  "|  3. Simulate responses with embedded correlations                    |",
  "|  4. Compute subscale scores                                          |",
  "|                                                                      |",
  "|  Outputs:                                                            |",
  "|  - outputs/data/demographics.csv                                     |",
  "|  - outputs/data/responses_raw.csv                                    |",
  "|  - outputs/data/responses_coded.xlsx                                 |",
  "|  - outputs/data/simulation_parameters.json                           |",
  "+----------------------------------------------------------------------+"]

def FEASIBILITY_DATA_TEXT : String := boxText [
  "+----------------------------------------------------------------------+",
  "|  PHASE 4: FEASIBILITY - DATA VALIDATION                              |",
  "+----------------------------------------------------------------------+",
  "|  Skill: skills/feasibility-data/SKILL.md                             |",
  "|                                                                      |",
  "|  CHECKPOINT: Validate data quality before full analysis.             |",
  "|                                                                      |",
  "|  Tasks:                                                              |",
  "|  1. Check if target correlations were achieved                       |",
  "|  2. Verify scale reliability (alpha >= 0.70)                         |",
  "|  3. Assess statistical power for planned tests                       |",
  "|  4. Flag distribution problems                                       |",
  "|                                                                      |",
  "|  Outputs:                                                            |",
  "|  - outputs/feasibility/data_quality.json                             |",
  "|  - outputs/feasibility/data_feasibility_report.md                    |",
  "|                                                                      |",
  "|  Decision:                                                           |",
  "|  - PROCEED: All checks pass                                          |",
  "|  - CAUTION: Minor issues, note limitations                           |",
  "|  - REGENERATE: Critical issues, return to Phase 3                    |",
  "+----------------------------------------------------------------------+"]

def ANALYZE_TEXT : String := boxText [
  "+----------------------------------------------------------------------+",
  "|  PHASE 5: DATA ANALYSIS                                              |",
  "+----------------------------------------------------------------------+",
  "|  Skill: skills/data-analysis/SKILL.md                                |",
  "|                                                                      |",
  "|  Tasks:                                                              |",
  "|  1. Compute descriptive statistics                                   |",
  "|  2. Test hypotheses (correlations, t-tests, ANOVA)                   |",
  "|  3. Calculate reliability (Cronbach\x27s alpha)                        |",
  "|  4. Generate visualizations                                          |",
  "|                                                                      |",
  "|  Outputs:                                                            |",
  "|  - outputs/analysis/descriptive_stats.json                           |",
  "|  - outputs/analysis/hypothesis_tests.json                            |",
  "|  - outputs/analysis/reliability.json                                 |",
  "|  - outputs/analysis/figures/*.png                                    |",
  "|  - outputs/analysis/tables/*.md                                      |",
  "+----------------------------------------------------------------------+"]

def WRITE_TEXT : String := boxText [
  "+----------------------------------------------------------------------+",
  "|  PHASE 6: THESIS WRITING                                             |",
  "+----------------------------------------------------------------------+",
  "|  Skill: skills/thesis-writer/SKILL.md                                |",
  "|                                                                      |",
  "|  Tasks:                                                              |",
  "|  1. Compose Introduction                                             |",
  "|  2. Write Chapter 1 (Theory) from literature_review.md               |",
  "|  3. Write Chapter 2 (Methods) from instruments_detailed.json         |",
  "|  4. Write Chapter 3 (Results) from analysis outputs                  |",
  "|  5. Write Chapter 4 (Conclusions)                                    |",
  "|  6. Generate Abstract                                                |",
  "|  7. Assemble final document                                          |",
  "|                                                                      |",
  "|  Outputs:                                                            |",
  "|  - outputs/thesis/chapters/*.md                                      |",
  "|  - outputs/thesis/thesis_draft.docx                                  |",
  "+----------------------------------------------------------------------+"]

/-- The static instruction table of print_phase_instructions, keyed by
phase identifier in definition order. -/
def instructions : List (String × String) :=
  [("research", RESEARCH_TEXT),
   ("feasibility-research", FEASIBILITY_RESEARCH_TEXT),
   ("simulate", SIMULATE_TEXT),
   ("feasibility-data", FEASIBILITY_DATA_TEXT),
   ("analyze", ANALYZE_TEXT),
   ("write", WRITE_TEXT)]

/-- print_phase_instructions in run.py: a pure lookup into the static
table, falling back to an unknown-phase message for any other key. -/
def print_phase_instructions (phase : String) : String :=
  (alookup instructions phase).getD ("Unknown phase: " ++ phase)

/-- Python string slicing from the left: the first n characters. -/
def strTake (s : String) (n : Nat) : String := String.mk (s.data.take n)

/-- Python format-spec left justification to a minimum field width. -/
def ljust (s : String) (width : Nat) : String :=
  s ++ String.mk (List.replicate (width - s.length) ' ')

/-- The theme field of the overview banner: the theme sliced to 56
characters and left-justified in a 56-wide field. -/
def displayedTheme (c : Config) : String := ljust (strTake c.theme 56) 56

/-- A banner border: a plus sign, 70 copies of the given character, a
plus sign. -/
def hline (c : Char) : String :=
  "+" ++ String.mk (List.replicate 70 c) ++ "+"

def WORKFLOW_HEAD : String :=
  "\n" ++ hline '=' ++ "\n" ++
  "|  THESIS DRAFT GENERATOR                                              |\n" ++
  hline '=' ++ "\n"

def WORKFLOW_TAIL : String :=
  hline '-' ++ "\n" ++
  "|  WORKFLOW (6 phases with 2 feasibility checkpoints):                 |\n" ++
  "|                                                                      |\n" ++
  "|  Phase 1: RESEARCH              -> Gather literature & instruments   |\n" ++
  "|  Phase 2: FEASIBILITY-RESEARCH  -> Discover best direction [CHECK]   |\n" ++
  "|  Phase 3: SIMULATE              -> Generate realistic data           |\n" ++
  "|  Phase 4: FEASIBILITY-DATA      -> Validate data quality [CHECK]     |\n" ++
  "|  Phase 5: ANALYZE               -> Statistical analysis              |\n" ++
  "|  Phase 6: WRITE                 -> Compose thesis chapters           |\n" ++
  "|                                                                      |\n" ++
  "|  Execute phases sequentially. Review checkpoints before proceeding.  |\n" ++
  hline '=' ++ "\n"

/-- print_full_workflow in run.py: the overview banner showing theme,
instruments and sample size followed by the static phase summary. -/
def print_full_workflow (c : Config) : String :=
  WORKFLOW_HEAD ++ "|  Theme: " ++ displayedTheme c ++ " |\n" ++
  "|  Instruments: " ++ ljust (joinSep ", " c.instruments) 52 ++ " |\n" ++
  "|  Sample Size: " ++ ljust (toString c.sample_size) 53 ++ " |\n" ++
  WORKFLOW_TAIL

/-- The lines the status action prints for an available configuration. -/
def status_lines (c : Config) : List String :=
  ["\nCurrent configuration:",
   "  Theme: " ++ c.theme,
   "  Instruments: " ++ joinSep ", " c.instruments,
   "  Sample: " ++ toString c.sample_size,
   "\nPhase status:"]
  ++ PHASES.map (fun phase =>
      let status := (alookup c.phases phase).getD "unknown"
      let marker := if status = "pending" then "  " else "* "
      "  " ++ marker ++ phase ++ ": " ++ status)

def USAGE_TEXT : String :=
  "usage: run.py [-h] [--theme THEME] [--instruments INSTRUMENTS] [--sample SAMPLE] " ++
  "[--phase \x7bresearch,feasibility-research,simulate,feasibility-data,analyze,write\x7d] " ++
  "[--full] [--status] [--config CONFIG]"

/-- The top-level help text argparse prints when print_help runs. -/
def HELP_TEXT : String :=
  USAGE_TEXT ++ "\n\nThesis Draft Generator for Social Sciences\n"

/-- Marker for an uncaught Python exception terminating the process. -/
def TRACEBACK : String := "Traceback (most recent call last):"

/-- The parsed command-line options of run.py with argparse defaults. -/
structure Args where
  theme : Option String := none
  instruments : Option String := none
  sample : Int := 50
  phase : Option String := none
  full : Bool := false
  status : Bool := false
  config : Option String := none

/-- Python truthiness of an optional string option: absent and empty are
both falsy. -/
def truthy : Option String → Bool
  | none => false
  | some s => decide (s ≠ "")

/-- The argparse choices constraint on the phase option: any supplied
value outside the six phases is rejected before the program body runs. -/
def phaseChoiceOk : Option String → Bool
  | none => true
  | some p => decide (p ∈ PHASES)

def optTruthy : Option Json → Bool
  | none => false
  | some j => j.truthy

/-- The outcome of one invocation: everything printed, the exit status,
and the final filesystem state. -/
structure RunResult where
  out : List String
  exitCode : Nat
  fs : FS

/-- The action-dispatch tail of main in run.py: status display, phase
instructions, full workflow overview, or the help text.  It only ever
prints; the filesystem is untouched. -/
def run_action (a : Args) (config : Option Json) : List String × Nat :=
  if a.status then
    match config with
    | some j =>
      match config_of_json j with
      | some c => (status_lines c, 0)
      | none => ([TRACEBACK], 1)
    | none => (["No configuration found. Initialize with --theme and --instruments."], 0)
  else if truthy a.phase then
    ([print_phase_instructions (a.phase.getD "")], 0)
  else if a.full || optTruthy config then
    match config with
    | some j =>
      match config_of_json j with
      | some c => ([print_full_workflow c, "\nTo execute a phase, run:"]
          ++ PHASES.map (fun phase => "  python run.py --phase " ++ phase), 0)
      | none => ([TRACEBACK], 1)
    | none => ([TRACEBACK], 1)
  else
    ([HELP_TEXT], 0)

/-- main in run.py: argparse validation, directory bootstrap,
configuration handling (create-and-save, explicit path, or default
load with its missing-file exit), then the requested action. -/
def run_main (now : String) (a : Args) (fs : FS) : RunResult :=
  if !phaseChoiceOk a.phase then
    { out := [USAGE_TEXT,
        "run.py: error: argument --phase: invalid choice: \x27" ++ a.phase.getD "" ++ "\x27"],
      exitCode := 2, fs := fs }
  else
    match setup_directories fs.dirs with
    | Except.error e => { out := [TRACEBACK ++ " " ++ e], exitCode := 1, fs := fs }
    | Except.ok d1 =>
      let fs1 : FS := { dirs := d1, files := fs.files }
      if truthy a.theme && truthy a.instruments then
        let instruments := parse_instruments (a.instruments.getD "")
        let config := create_config (a.theme.getD "") instruments a.sample now
        let saved := save_config fs1 config
        let acted := run_action a (some (Config.toJson config))
        { out := [saved.2] ++ acted.1, exitCode := acted.2, fs := saved.1 }
      else if truthy a.config then
        match alookup fs1.files (a.config.getD "") with
        | none => { out := [TRACEBACK], exitCode := 1, fs := fs1 }
        | some j =>
          let acted := run_action a (some j)
          { out := acted.1, exitCode := acted.2, fs := fs1 }
      else
        match load_config fs1 with
        | Except.error msg =>
          if !a.status then
            { out := ["Error: " ++ msg,
                "\nRun with --theme and --instruments to initialize:",
                "  python run.py --theme \"Your Theme\" --instruments \"SCALE1,SCALE2\""],
              exitCode := 1, fs := fs1 }
          else
            let acted := run_action a none
            { out := acted.1, exitCode := acted.2, fs := fs1 }
        | Except.ok j =>
          let acted := run_action a (some j)
          { out := acted.1, exitCode := acted.2, fs := fs1 }

/-- A concrete configuration used in concrete runs: the example from the
module docstring of run.py. -/
def exampleConfig : Config :=
  create_config "Emotional Intelligence and Burnout" ["EQ-i", "MBI"] 100 "2024-01-01T00:00:00"

/-- A concrete configuration whose theme is 60 characters long. -/
def longThemeConfig : Config :=
  create_config "AAAAAAAAAAAAAAAAAAAAAAAAAAAAAAAAAAAAAAAAAAAAAAAAAAAAAAAAAAAA"
    ["EQ-i", "MBI"] 100 "2024-01-01T00:00:00"

lemma alookup_aset {α : Type} (l : List (String × α)) (k : String) (v : α) :
    alookup (aset l k v) k = some v := by
  induction l with
  | nil => simp [aset, alookup]
  | cons h t ih =>
    obtain ⟨k0, v0⟩ := h
    by_cases hk : k0 = k
    · simp [aset, alookup, hk]
    · simp [aset, alookup, hk, ih]

lemma optMap_asStr_map (l : List String) :
    optMap Json.asStr (l.map Json.str) = some l := by
  induction l with
  | nil => rfl
  | cons x t ih => simp [optMap, Json.asStr, ih]

lemma optMap_asPhases_map (l : List (String × String)) :
    optMap (fun kv => (Json.asStatus kv.2).map (fun s => (kv.1, s)))
      (l.map (fun kv => (kv.1, Json.obj [("status", Json.str kv.2)]))) = some l := by
  induction l with
  | nil => rfl
  | cons x t ih =>
    obtain ⟨k, v⟩ := x
    simp only [List.map_cons, optMap]
    rw [ih]
    simp [Json.asStatus, alookup, Json.asStr]

/-- Reading back the JSON dump of any configuration record recovers the
record exactly. -/
lemma config_of_json_toJson (c : Config) : config_of_json (Config.toJson c) = some c := by
  simp [config_of_json, Config.toJson, alookup, Json.asStr, Json.asStrList, Json.asInt,
    Json.asPhases, optMap_asStr_map, optMap_asPhases_map]

lemma splitCharList_length (sep : Char) (l : List Char) :
    (splitCharList sep l).length = l.count sep + 1 := by
  induction l with
  | nil => rfl
  | cons c t ih =>
    by_cases hc : c = sep
    · simp [splitCharList, hc, ih, List.count_cons]
    · cases hr : splitCharList sep t with
      | nil => simp [hr] at ih
      | cons h r =>
        have : (splitCharList sep (c :: t)).length = (h :: r).length := by
          simp [splitCharList, hc, hr]
        rw [this, ← hr, ih, List.count_cons]
        simp [hc]

lemma mkdirNP_root (d : List (List String)) (s : String) :
    mkdirNP d [s] = Except.ok (mkdirP1 d [s]) := by
  by_cases h : [s] ∈ d
  · simp [mkdirNP, mkdirP1, h]
  · simp [mkdirNP, mkdirP1, h]

lemma setup_directories_eq (d : List (List String)) :
    setup_directories d = Except.ok (setup_result d) := by
  simp [setup_directories, setup_result, INPUTS_SEG, mkdirNP_root]

lemma mkdirP1_mem_self (d : List (List String)) (p : List String) : p ∈ mkdirP1 d p := by
  by_cases h : p ∈ d <;> simp [mkdirP1, h]

lemma mkdirP1_mem_of_mem {d : List (List String)} {q : List String} (p : List String)
    (h : q ∈ d) : q ∈ mkdirP1 d p := by
  by_cases hp : p ∈ d <;> simp [mkdirP1, hp, h]

lemma mkdirP1_eq_of_mem {d : List (List String)} {p : List String} (h : p ∈ d) :
    mkdirP1 d p = d := by
  simp [mkdirP1, h]

lemma foldl_mkdirP1_mem (ps : List (List String)) {d : List (List String)}
    {q : List String} (h : q ∈ d ∨ q ∈ ps) : q ∈ ps.foldl mkdirP1 d := by
  induction ps generalizing d with
  | nil =>
    rcases h with h | h
    · simpa using h
    · simp at h
  | cons p t ih =>
    rw [List.foldl_cons]
    apply ih
    rcases h with h | h
    · exact Or.inl (mkdirP1_mem_of_mem p h)
    · rcases List.mem_cons.mp h with rfl | h
      · exact Or.inl (mkdirP1_mem_self d q)
      · exact Or.inr h

lemma foldl_mkdirP1_id (ps : List (List String)) {d : List (List String)}
    (h : ∀ q ∈ ps, q ∈ d) : ps.foldl mkdirP1 d = d := by
  induction ps with
  | nil => rfl
  | cons p t ih =>
    have hp : p ∈ d := h p (List.mem_cons_self _ _)
    rw [List.foldl_cons, mkdirP1_eq_of_mem hp]
    exact ih (fun q hq => h q (List.mem_cons_of_mem _ hq))

lemma mkdir_parents_mem {d : List (List String)} {q : List String} (p : List String)
    (h : q ∈ d ∨ q ∈ ancestors p) : q ∈ mkdir_parents d p :=
  foldl_mkdirP1_mem _ h

lemma mkdir_parents_id {d : List (List String)} (p : List String)
    (h : ∀ q ∈ ancestors p, q ∈ d) : mkdir_parents d p = d :=
  foldl_mkdirP1_id _ h

lemma boot_paths :
    OUTPUTS_SEG ++ splitSlash "research" = ["outputs", "research"]
    ∧ OUTPUTS_SEG ++ splitSlash "feasibility" = ["outputs", "feasibility"]
    ∧ OUTPUTS_SEG ++ splitSlash "data" = ["outputs", "data"]
    ∧ OUTPUTS_SEG ++ splitSlash "analysis" = ["outputs", "analysis"]
    ∧ OUTPUTS_SEG ++ splitSlash "thesis/chapters" = ["outputs", "thesis", "chapters"] := by
  decide

lemma setup_result_unfold (d : List (List String)) :
    setup_result d =
      mkdirP1 (mkdir_parents (mkdir_parents (mkdir_parents (mkdir_parents (mkdir_parents d
        ["outputs", "research"]) ["outputs", "feasibility"]) ["outputs", "data"])
        ["outputs", "analysis"]) ["outputs", "thesis", "chapters"]) ["inputs"] := by
  simp only [setup_result, OUTPUT_SUBDIRS, List.foldl, INPUTS_SEG,
    boot_paths.1, boot_paths.2.1, boot_paths.2.2.1, boot_paths.2.2.2.1, boot_paths.2.2.2.2]

lemma setup_result_mem (d : List (List String)) :
    ["outputs"] ∈ setup_result d
    ∧ ["outputs", "research"] ∈ setup_result d
    ∧ ["outputs", "feasibility"] ∈ setup_result d
    ∧ ["outputs", "data"] ∈ setup_result d
    ∧ ["outputs", "analysis"] ∈ setup_result d
    ∧ ["outputs", "thesis"] ∈ setup_result d
    ∧ ["outputs", "thesis", "chapters"] ∈ setup_result d
    ∧ ["inputs"] ∈ setup_result d := by
  rw [setup_result_unfold]
  refine ⟨?_, ?_, ?_, ?_, ?_, ?_, ?_, ?_⟩
  · exact mkdirP1_mem_of_mem _ (mkdir_parents_mem _ (Or.inl (mkdir_parents_mem _ (Or.inl
      (mkdir_parents_mem _ (Or.inl (mkdir_parents_mem _ (Or.inl
      (mkdir_parents_mem _ (Or.inr (by decide)))))))))))
  · exact mkdirP1_mem_of_mem _ (mkdir_parents_mem _ (Or.inl (mkdir_parents_mem _ (Or.inl
      (mkdir_parents_mem _ (Or.inl (mkdir_parents_mem _ (Or.inl
      (mkdir_parents_mem _ (Or.inr (by decide)))))))))))
  · exact mkdirP1_mem_of_mem _ (mkdir_parents_mem _ (Or.inl (mkdir_parents_mem _ (Or.inl
      (mkdir_parents_mem _ (Or.inl (mkdir_parents_mem _ (Or.inr (by decide)))))))))
  · exact mkdirP1_mem_of_mem _ (mkdir_parents_mem _ (Or.inl (mkdir_parents_mem _ (Or.inl
      (mkdir_parents_mem _ (Or.inr (by decide)))))))
  · exact mkdirP1_mem_of_mem _ (mkdir_parents_mem _ (Or.inl (mkdir_parents_mem _ (Or.inr
      (by decide)))))
  · exact mkdirP1_mem_of_mem _ (mkdir_parents_mem _ (Or.inr (by decide)))
  · exact mkdirP1_mem_of_mem _ (mkdir_parents_mem _ (Or.inr (by decide)))
  · exact mkdirP1_mem_self _ _

lemma setup_result_idem (d : List (List String)) :
    setup_result (setup_result d) = setup_result d := by
  obtain ⟨h1, h2, h3, h4, h5, h6, h7, h8⟩ := setup_result_mem d
  rw [setup_result_unfold (setup_result d)]
  have e1 : mkdir_parents (setup_result d) ["outputs", "research"] = setup_result d := by
    apply mkdir_parents_id
    intro q hq
    simp [ancestors] at hq
    rcases hq with rfl | rfl
    · exact h1
    · exact h2
  have e2 : mkdir_parents (setup_result d) ["outputs", "feasibility"] = setup_result d := by
    apply mkdir_parents_id
    intro q hq
    simp [ancestors] at hq
    rcases hq with rfl | rfl
    · exact h1
    · exact h3
  have e3 : mkdir_parents (setup_result d) ["outputs", "data"] = setup_result d := by
    apply mkdir_parents_id
    intro q hq
    simp [ancestors] at hq
    rcases hq with rfl | rfl
    · exact h1
    · exact h4
  have e4 : mkdir_parents (setup_result d) ["outputs", "analysis"] = setup_result d := by
    apply mkdir_parents_id
    intro q hq
    simp [ancestors] at hq
    rcases hq with rfl | rfl
    · exact h1
    · exact h5
  have e5 : mkdir_parents (setup_result d) ["outputs", "thesis", "chapters"]
      = setup_result d := by
    apply mkdir_parents_id
    intro q hq
    simp [ancestors] at hq
    rcases hq with rfl | rfl | rfl
    · exact h1
    · exact h6
    · exact h7
  rw [e1, e2, e3, e4, e5]
  exact mkdirP1_eq_of_mem h8

/-- Outside the create-and-save branch, no invocation ever writes a
file: the configuration on disk is untouched. -/
lemma run_main_files (now : String) (a : Args) (fs : FS)
    (h : (truthy a.theme && truthy a.instruments) = false) :
    (run_main now a fs).fs.files = fs.files := by
  simp only [run_main, h, setup_directories_eq, Bool.false_eq_true, if_false]
  split
  · rfl
  · split
    · split <;> rfl
    · split
      · split <;> rfl
      · rfl

lemma str_append_assoc (a b c : String) : a ++ b ++ c = a ++ (b ++ c) := by
  obtain ⟨la⟩ := a
  obtain ⟨lb⟩ := b
  obtain ⟨lc⟩ := c
  show String.mk (la ++ lb ++ lc) = String.mk (la ++ (lb ++ lc))
  rw [List.append_assoc]

lemma str_append_empty (s : String) : s ++ "" = s := by
  obtain ⟨l⟩ := s
  show String.mk (l ++ []) = String.mk l
  rw [List.append_nil]

lemma ljust_eq_of_length (s : String) (w : Nat) (h : w ≤ s.length) : ljust s w = s := by
  unfold ljust
  rw [Nat.sub_eq_zero_of_le h]
  exact str_append_empty s

lemma strTake_length (s : String) (n : Nat) : (strTake s n).length = min n s.length := by
  obtain ⟨l⟩ := s
  show (l.take n).length = min n l.length
  exact List.length_take n l

lemma strTake_ne {s : String} (h : 56 < s.length) : strTake s 56 ≠ s := by
  intro he
  have hl := congrArg String.length he
  rw [strTake_length] at hl
  omega

/-- C1: for every theme string, instrument list and sample size,
create_config followed by save_config followed by load_config yields a
record whose theme, instruments (same strings, same order), sample_size,
created timestamp and phases map equal those of the record created. -/
theorem create_save_load_round_trip (theme : String) (instruments : List String)
    (sample : Int) (now : String) (fs : FS) :
    load_config (save_config fs (create_config theme instruments sample now)).1
      = Except.ok (Config.toJson (create_config theme instruments sample now))
    ∧ config_of_json (Config.toJson (create_config theme instruments sample now))
      = some (create_config theme instruments sample now) := by
  constructor
  · simp [load_config, save_config, alookup_aset]
  · exact config_of_json_toJson _

/-- C2 counterexample: invoking with the phase option set to bogus ends
with exit status 2 (not zero), and the unknown-phase message is never
printed: argparse rejects the value before the program body runs. -/
theorem phase_bogus_counterexample :
    (run_main "2024-01-01T00:00:00" { phase := some "bogus" } ⟨[], []⟩).exitCode = 2
    ∧ (run_main "2024-01-01T00:00:00" { phase := some "bogus" } ⟨[], []⟩).exitCode ≠ 0
    ∧ "Unknown phase: bogus"
        ∉ (run_main "2024-01-01T00:00:00" { phase := some "bogus" } ⟨[], []⟩).out := by
  refine ⟨rfl, by decide, by decide⟩

/-- C2 (amended): the unknown-phase fallback lives only inside
print_phase_instructions, which maps an unrecognized identifier to the
message "Unknown phase: bogus" without failing; but a command-line
invocation with the phase option set to bogus is rejected by the
argparse choices constraint with an invalid-choice error and exit
status 2, for every starting filesystem state. -/
theorem phase_bogus_behavior :
    print_phase_instructions "bogus" = "Unknown phase: bogus"
    ∧ ∀ (now : String) (fs : FS),
        (run_main now { phase := some "bogus" } fs).exitCode = 2
        ∧ (run_main now { phase := some "bogus" } fs).out
            = [USAGE_TEXT, "run.py: error: argument --phase: invalid choice: \x27bogus\x27"] := by
  refine ⟨by decide, fun now fs => ⟨rfl, rfl⟩⟩

/-- C3 counterexample: with no command-line flags and an existing
configuration file, the program prints the full workflow overview and
not the help text; with no flags and no configuration it prints the
missing-configuration error and exits 1, again without the help text. -/
theorem no_flags_counterexample :
    HELP_TEXT ∉ (run_main "2024-01-02T00:00:00" { }
        ⟨[], [(CONFIG_PATH, Config.toJson exampleConfig)]⟩).out
    ∧ (run_main "2024-01-02T00:00:00" { }
        ⟨[], [(CONFIG_PATH, Config.toJson exampleConfig)]⟩).out
        = [print_full_workflow exampleConfig, "\nTo execute a phase, run:"]
          ++ PHASES.map (fun phase => "  python run.py --phase " ++ phase)
    ∧ HELP_TEXT ∉ (run_main "2024-01-02T00:00:00" { } ⟨[], []⟩).out
    ∧ (run_main "2024-01-02T00:00:00" { } ⟨[], []⟩).exitCode = 1 := by
  refine ⟨by decide, rfl, by decide, rfl⟩

/-- C3 (amended): invoking with no flags prints the full workflow
overview and exits 0 when a configuration file exists, and prints the
missing-configuration error and exits 1 when none exists; the top-level
help text is printed in neither case. -/
theorem no_flags_behavior (now : String) (fs fs2 : FS) (c : Config)
    (hc : alookup fs.files CONFIG_PATH = some (Config.toJson c))
    (h2 : alookup fs2.files CONFIG_PATH = none) :
    (run_main now { } fs).out = [print_full_workflow c, "\nTo execute a phase, run:"]
        ++ PHASES.map (fun phase => "  python run.py --phase " ++ phase)
    ∧ (run_main now { } fs).exitCode = 0
    ∧ (run_main now { } fs2).exitCode = 1
    ∧ (run_main now { } fs2).out
        = ["Error: " ++ ("No configuration found at " ++ CONFIG_PATH ++
             ". Run with --theme and --instruments first."),
           "\nRun with --theme and --instruments to initialize:",
           "  python run.py --theme \"Your Theme\" --instruments \"SCALE1,SCALE2\""] := by
  have h1 : truthy (none : Option String) = false := rfl
  have h0 : phaseChoiceOk (none : Option String) = true := rfl
  have hoptt : optTruthy (some (Config.toJson c)) = true := rfl
  refine ⟨?_, ?_, ?_, ?_⟩
  · simp [run_main, run_action, h0, h1, setup_directories_eq, load_config, hc, hoptt,
      config_of_json_toJson]
  · simp [run_main, run_action, h0, h1, setup_directories_eq, load_config, hc, hoptt,
      config_of_json_toJson]
  · simp [run_main, run_action, h0, h1, setup_directories_eq, load_config, h2]
  · simp [run_main, run_action, h0, h1, setup_directories_eq, load_config, h2]

/-- C3 witness: the amended no-flags behaviour at a concrete filesystem
with the example configuration present and at an empty filesystem. -/
theorem no_flags_behavior_witness :
    (alookup ([(CONFIG_PATH, Config.toJson exampleConfig)] : List (String × Json)) CONFIG_PATH
        = some (Config.toJson exampleConfig)
     ∧ alookup (([] : List (String × Json))) CONFIG_PATH = none)
    ∧ ((run_main "2024-01-02T00:00:00" { }
          ⟨[], [(CONFIG_PATH, Config.toJson exampleConfig)]⟩).out
          = [print_full_workflow exampleConfig, "\nTo execute a phase, run:"]
            ++ PHASES.map (fun phase => "  python run.py --phase " ++ phase)
       ∧ (run_main "2024-01-02T00:00:00" { }
            ⟨[], [(CONFIG_PATH, Config.toJson exampleConfig)]⟩).exitCode = 0
       ∧ (run_main "2024-01-02T00:00:00" { } ⟨[], []⟩).exitCode = 1
       ∧ (run_main "2024-01-02T00:00:00" { } ⟨[], []⟩).out
           = ["Error: " ++ ("No configuration found at " ++ CONFIG_PATH ++
                ". Run with --theme and --instruments first."),
              "\nRun with --theme and --instruments to initialize:",
              "  python run.py --theme \"Your Theme\" --instruments \"SCALE1,SCALE2\""]) :=
  ⟨⟨rfl, rfl⟩, no_flags_behavior "2024-01-02T00:00:00"
    ⟨[], [(CONFIG_PATH, Config.toJson exampleConfig)]⟩ ⟨[], []⟩ exampleConfig rfl rfl⟩

/-- C4 counterexample: with no configuration file, an invocation naming
the recognized phase research exits 1 and never prints the research
instruction block, so printing is not independent of configuration
existence. -/
theorem phase_no_config_counterexample :
    (run_main "2024-01-01T00:00:00" { phase := some "research" } ⟨[], []⟩).exitCode = 1
    ∧ print_phase_instructions "research"
        ∉ (run_main "2024-01-01T00:00:00" { phase := some "research" } ⟨[], []⟩).out := by
  refine ⟨rfl, by decide⟩

/-- C4 (amended): print_phase_instructions is a pure lookup into the
static table, and when a configuration file exists (with any JSON
content j, read but never inspected on this path, and never mutated) an
invocation with a recognized phase prints exactly that phase's
instruction block and exits 0; but when no configuration source exists
at all the program exits non-zero before printing instructions. -/
theorem phase_print_pure (now : String) (fs : FS) (p : String) (j : Json)
    (hp : p ∈ PHASES) (hc : alookup fs.files CONFIG_PATH = some j) :
    (run_main now { phase := some p } fs).out = [print_phase_instructions p]
    ∧ (run_main now { phase := some p } fs).exitCode = 0
    ∧ (run_main now { phase := some p } fs).fs.files = fs.files := by
  have hok : phaseChoiceOk (some p) = true := by simp [phaseChoiceOk, hp]
  have htr : truthy (some p) = true := by
    simp [truthy]
    rintro rfl
    simp [PHASES] at hp
  have h1 : truthy (none : Option String) = false := rfl
  simp [run_main, run_action, hok, htr, h1, setup_directories_eq, load_config, hc]

/-- C4 witness: the phase instruction behaviour at the concrete phase
write over a filesystem whose configuration file holds JSON null. -/
theorem phase_print_pure_witness :
    ("write" ∈ PHASES
     ∧ alookup ([(CONFIG_PATH, Json.null)] : List (String × Json)) CONFIG_PATH = some Json.null)
    ∧ ((run_main "2024-01-01T00:00:00" { phase := some "write" }
          ⟨[], [(CONFIG_PATH, Json.null)]⟩).out = [print_phase_instructions "write"]
       ∧ (run_main "2024-01-01T00:00:00" { phase := some "write" }
            ⟨[], [(CONFIG_PATH, Json.null)]⟩).exitCode = 0
       ∧ (run_main "2024-01-01T00:00:00" { phase := some "write" }
            ⟨[], [(CONFIG_PATH, Json.null)]⟩).fs.files = [(CONFIG_PATH, Json.null)]) :=
  ⟨⟨by decide, rfl⟩,
   phase_print_pure "2024-01-01T00:00:00" ⟨[], [(CONFIG_PATH, Json.null)]⟩ "write" Json.null
     (by decide) rfl⟩

/-- C5: when no configuration file exists and no theme, instruments or
config option is supplied, a status request prints the
no-configuration-found message and exits 0, while any other requested
action (any valid phase selection, full or nothing) prints a message
that references the expected configuration path and exits 1. -/
theorem no_config_behavior (now : String) (fs : FS) (ph : Option String) (fl : Bool) (n : Int)
    (hok : phaseChoiceOk ph = true)
    (hnone : alookup fs.files CONFIG_PATH = none) :
    (run_main now ⟨none, none, n, ph, fl, true, none⟩ fs).exitCode = 0
    ∧ (run_main now ⟨none, none, n, ph, fl, true, none⟩ fs).out
        = ["No configuration found. Initialize with --theme and --instruments."]
    ∧ (run_main now ⟨none, none, n, ph, fl, false, none⟩ fs).exitCode = 1
    ∧ (run_main now ⟨none, none, n, ph, fl, false, none⟩ fs).out
        = ["Error: " ++ ("No configuration found at " ++ CONFIG_PATH ++
             ". Run with --theme and --instruments first."),
           "\nRun with --theme and --instruments to initialize:",
           "  python run.py --theme \"Your Theme\" --instruments \"SCALE1,SCALE2\""] := by
  have h1 : truthy (none : Option String) = false := rfl
  simp [run_main, run_action, hok, h1, setup_directories_eq, load_config, hnone]

/-- C5 witness: the missing-configuration behaviour concretely, with the
phase option set to write, on an empty filesystem. -/
theorem no_config_behavior_witness :
    (phaseChoiceOk (some "write") = true
     ∧ alookup (([] : List (String × Json))) CONFIG_PATH = none)
    ∧ ((run_main "2024-01-01T00:00:00" ⟨none, none, 50, some "write", false, true, none⟩
          ⟨[], []⟩).exitCode = 0
       ∧ (run_main "2024-01-01T00:00:00" ⟨none, none, 50, some "write", false, true, none⟩
            ⟨[], []⟩).out
           = ["No configuration found. Initialize with --theme and --instruments."]
       ∧ (run_main "2024-01-01T00:00:00" ⟨none, none, 50, some "write", false, false, none⟩
            ⟨[], []⟩).exitCode = 1
       ∧ (run_main "2024-01-01T00:00:00" ⟨none, none, 50, some "write", false, false, none⟩
            ⟨[], []⟩).out
           = ["Error: " ++ ("No configuration found at " ++ CONFIG_PATH ++
                ". Run with --theme and --instruments first."),
              "\nRun with --theme and --instruments to initialize:",
              "  python run.py --theme \"Your Theme\" --instruments \"SCALE1,SCALE2\""]) :=
  ⟨⟨by decide, rfl⟩,
   no_config_behavior "2024-01-01T00:00:00" ⟨[], []⟩ (some "write") false 50 (by decide) rfl⟩

/-- C6: every freshly created configuration has a phases map whose key
sequence is exactly the ordered six-phase list, with every key mapped to
the pending status. -/
theorem create_config_phases (theme : String) (instruments : List String)
    (sample : Int) (now : String) :
    (create_config theme instruments sample now).phases =
      [("research", "pending"), ("feasibility-research", "pending"),
       ("simulate", "pending"), ("feasibility-data", "pending"),
       ("analyze", "pending"), ("write", "pending")]
    ∧ ((create_config theme instruments sample now).phases).map Prod.fst = PHASES := by
  exact ⟨rfl, rfl⟩

/-- C7: parse_instruments splits on commas and strips surrounding
whitespace from each token, preserving order and duplicates; in
particular it maps "A, B ,C" to the three trimmed tokens, keeps
duplicates in order, and the number of tokens is always one more than
the number of commas (no token is ever dropped or merged). -/
theorem parse_instruments_spec :
    parse_instruments "A, B ,C" = ["A", "B", "C"]
    ∧ parse_instruments "EQ-i, MBI ,EQ-i" = ["EQ-i", "MBI", "EQ-i"]
    ∧ ∀ s : String, (parse_instruments s).length = s.data.count ',' + 1 := by
  refine ⟨by decide, by decide, ?_⟩
  intro s
  simp [parse_instruments, splitCharList_length]

/-- C8: the directory bootstrap is idempotent: from every starting
filesystem state it succeeds, and running it a second time raises no
error and leaves the directory tree of the first run unchanged. -/
theorem setup_directories_idempotent (d : List (List String)) :
    ∃ d2, setup_directories d = Except.ok d2 ∧ setup_directories d2 = Except.ok d2 := by
  refine ⟨setup_result d, setup_directories_eq d, ?_⟩
  rw [setup_directories_eq (setup_result d), setup_result_idem]

/-- C9: for every configuration whose theme exceeds 56 characters, the
full workflow overview displays exactly the first 56 characters of the
theme (a strict truncation of the full string), while the persisted
JSON record retains the theme in full. -/
theorem theme_truncation (c : Config) (h : 56 < c.theme.length) :
    displayedTheme c = strTake c.theme 56
    ∧ (strTake c.theme 56).length = 56
    ∧ strTake c.theme 56 ≠ c.theme
    ∧ (∃ pre post, print_full_workflow c = pre ++ strTake c.theme 56 ++ post)
    ∧ config_of_json (Config.toJson c) = some c := by
  have hlen : (strTake c.theme 56).length = 56 := by
    rw [strTake_length]
    omega
  have hd : displayedTheme c = strTake c.theme 56 := by
    unfold displayedTheme
    exact ljust_eq_of_length _ _ (by omega)
  refine ⟨hd, hlen, strTake_ne h,
    ⟨WORKFLOW_HEAD ++ "|  Theme: ",
     " |\n" ++ "|  Instruments: " ++ ljust (joinSep ", " c.instruments) 52 ++ " |\n" ++
       "|  Sample Size: " ++ ljust (toString c.sample_size) 53 ++ " |\n" ++ WORKFLOW_TAIL, ?_⟩,
    config_of_json_toJson c⟩
  unfold print_full_workflow
  rw [hd]
  simp only [str_append_assoc]

/-- C9 witness: the truncation behaviour at a concrete configuration
whose theme is 60 characters long. -/
theorem theme_truncation_witness :
    56 < longThemeConfig.theme.length
    ∧ (displayedTheme longThemeConfig = strTake longThemeConfig.theme 56
       ∧ (strTake longThemeConfig.theme 56).length = 56
       ∧ strTake longThemeConfig.theme 56 ≠ longThemeConfig.theme
       ∧ (∃ pre post,
            print_full_workflow longThemeConfig = pre ++ strTake longThemeConfig.theme 56 ++ post)
       ∧ config_of_json (Config.toJson longThemeConfig) = some longThemeConfig) :=
  ⟨by decide, theme_truncation longThemeConfig (by decide)⟩

/-- C10: a new configuration is created and saved exactly when both the
theme and instruments options are supplied as non-empty strings (the
file then holds the dump of the created record and the save message is
printed); otherwise the supplied values are ignored: the whole run
behaves as if neither option had been given, falling back to the config
option or the default load path, and no file is written. -/
theorem config_creation_condition :
    (∀ (now : String) (fs : FS) (t i : String) (n : Int), t ≠ "" → i ≠ "" →
      alookup (run_main now { theme := some t, instruments := some i, sample := n } fs).fs.files
          CONFIG_PATH
        = some (Config.toJson (create_config t (parse_instruments i) n now))
      ∧ ("Configuration saved to " ++ CONFIG_PATH)
          ∈ (run_main now { theme := some t, instruments := some i, sample := n } fs).out)
    ∧ (∀ (now : String) (a : Args) (fs : FS),
        (truthy a.theme && truthy a.instruments) = false →
        run_main now a fs = run_main now { a with theme := none, instruments := none } fs
        ∧ (run_main now a fs).fs.files = fs.files) := by
  constructor
  · intro now fs t i n ht hi
    have ht' : truthy (some t) = true := by simp [truthy, ht]
    have hi' : truthy (some i) = true := by simp [truthy, hi]
    constructor
    · unfold run_main
      rw [setup_directories_eq, ht', hi']
      exact alookup_aset fs.files CONFIG_PATH _
    · unfold run_main
      rw [setup_directories_eq, ht', hi']
      exact List.mem_cons_self _ _
  · intro now a fs h
    refine ⟨?_, run_main_files now a fs h⟩
    have h1 : truthy (none : Option String) = false := rfl
    have hcg : ∀ cfg : Option Json,
        run_action { a with theme := none, instruments := none } cfg = run_action a cfg :=
      fun _ => rfl
    simp only [run_main, h, h1, setup_directories_eq, Bool.false_and,
      Bool.false_eq_true, if_false, hcg]

/-- C10 witness: saving happens with non-empty theme and instruments
(the docstring example inputs), and an empty theme string is ignored. -/
theorem config_creation_condition_witness :
    ("Emotional Intelligence and Burnout" ≠ "" ∧ "EQ-i,MBI" ≠ ""
     ∧ (truthy (some "") && truthy (some "EQ-i,MBI")) = false)
    ∧ (alookup (run_main "2024-01-01T00:00:00"
          { theme := some "Emotional Intelligence and Burnout",
            instruments := some "EQ-i,MBI", sample := 100 } ⟨[], []⟩).fs.files CONFIG_PATH
        = some (Config.toJson (create_config "Emotional Intelligence and Burnout"
            (parse_instruments "EQ-i,MBI") 100 "2024-01-01T00:00:00"))
       ∧ ("Configuration saved to " ++ CONFIG_PATH)
           ∈ (run_main "2024-01-01T00:00:00"
               { theme := some "Emotional Intelligence and Burnout",
                 instruments := some "EQ-i,MBI", sample := 100 } ⟨[], []⟩).out)
    ∧ (run_main "2024-01-01T00:00:00"
          { theme := some "", instruments := some "EQ-i,MBI" } ⟨[], []⟩
        = run_main "2024-01-01T00:00:00" { theme := none, instruments := none } ⟨[], []⟩
       ∧ (run_main "2024-01-01T00:00:00"
            { theme := some "", instruments := some "EQ-i,MBI" } ⟨[], []⟩).fs.files = []) :=
  ⟨⟨by decide, by decide, rfl⟩,
   config_creation_condition.1 "2024-01-01T00:00:00" ⟨[], []⟩
     "Emotional Intelligence and Burnout" "EQ-i,MBI" 100 (by decide) (by decide),
   config_creation_condition.2 "2024-01-01T00:00:00"
     { theme := some "", instruments := some "EQ-i,MBI" } ⟨[], []⟩ rfl⟩
